import Mathlib

/-!
Shallow embedding of `java/dexpreopt_config.go` from the Soong build system:
the layered boot-image configuration derivation (base "art" config, extension
"boot"/framework config, updatable boot config), target resolution, the
system-server classpath assembly and the exported make variable.

Helper operations defined elsewhere in the repository (the
`android.ConfiguredJarList` methods, `dexpreopt.NonUpdatableSystemServerJars`,
`bootImageConfig.firstModuleNameOrStem`, `moduleFiles`, `getAnyAndroidVariant`)
are modelled from the specification, as marked on each definition.
-/

namespace DexpreoptConfig

/-- Operating systems relevant to this file: `android.Android` (device) and
`android.BuildOs` (the host OS, here called `linux`). -/
inductive OsType where
  | android
  | linux
deriving DecidableEq, Repr

/-- `OsType.String()` as used in `target.Os.String()`. -/
def OsType.str : OsType → String
  | .android => "android"
  | .linux => "linux"

/-- `android.NativeBridgeSupport`: whether a target architecture is reached
through native-bridge emulation. -/
inductive NativeBridgeSupport where
  | disabled
  | enabled
deriving DecidableEq, Repr

/-- An `android.Target`: OS, architecture and native-bridge mode. -/
structure Target where
  os : OsType
  archType : String
  nativeBridge : NativeBridgeSupport
deriving DecidableEq, Repr

/-- One `(namespace, module)` pair of a jar list: `apex` is the namespace
("platform" for a non-apex module) and `jar` the module name. -/
structure ModulePair where
  apex : String
  jar : String
deriving DecidableEq, Repr

/-- Modelled from the spec: `JarList` is an ordered sequence of
(namespace, module-name) pairs (`android.ConfiguredJarList`, whose definition
lives outside this file). -/
abbrev ConfiguredJarList := List ModulePair

/-- The relevant part of `ctx.Config()`: the configured target matrix for the
device OS (`Targets[android.Android]`) and for the host OS
(`Targets[android.BuildOs]`), and the device name used for output paths. -/
structure SoongConfig where
  targetsDevice : List Target
  targetsHost : List Target
  deviceName : String
deriving DecidableEq, Repr

/-- The relevant fields of `dexpreopt.GlobalConfig`. -/
structure GlobalConfig where
  ArtApexJars : ConfiguredJarList
  BootJars : ConfiguredJarList
  UpdatableBootJars : ConfiguredJarList
  SystemServerJars : ConfiguredJarList
  UpdatableSystemServerJars : ConfiguredJarList
deriving DecidableEq, Repr

/-- Modelled from the spec: `RemoveList(other)` returns a new list containing
this list's pairs minus any pair present in `other`, preserving original
relative order of the kept pairs (`android.ConfiguredJarList.RemoveList`). -/
def RemoveList (l other : ConfiguredJarList) : ConfiguredJarList :=
  l.filter (fun m => decide (m ∉ other))

/-- Modelled from the spec: `BuildPaths(root)` derives, for each pair, a
deterministic namespace-qualified path under `root`, preserving list order
(`android.ConfiguredJarList.BuildPaths`). -/
def BuildPaths (l : ConfiguredJarList) (root : String) : List String :=
  l.map (fun m => root ++ "/" ++ m.apex ++ "/" ++ m.jar ++ ".jar")

/-- The OS-dependent root of on-device locations: empty on the device itself,
a host output root for the host OS. -/
def osRoot : OsType → String
  | .android => ""
  | .linux => "/host/linux-x86"

/-- Modelled from the spec: the on-device absolute path of one module, with a
fixed convention — a framework or apex mount point depending on the pair's
namespace field — parameterized by the OS. -/
def ModulePair.devicePath (m : ModulePair) (os : OsType) : String :=
  if m.apex = "platform" then
    osRoot os ++ "/system/framework/" ++ m.jar ++ ".jar"
  else
    osRoot os ++ "/apex/" ++ m.apex ++ "/javalib/" ++ m.jar ++ ".jar"

/-- Modelled from the spec: `DevicePaths(os)` derives the on-device classpath
location of every pair, in list order
(`android.ConfiguredJarList.DevicePaths`). -/
def DevicePaths (l : ConfiguredJarList) (os : OsType) : List String :=
  l.map (fun m => m.devicePath os)

/-- Modelled from the spec: the `namespace:module` pair strings of a jar list,
in list order (`android.ConfiguredJarList.CopyOfApexJarPairs`). -/
def CopyOfApexJarPairs (l : ConfiguredJarList) : List String :=
  l.map (fun m => m.apex ++ ":" ++ m.jar)

/-- Modelled from the spec: `dexpreopt.NonUpdatableSystemServerJars` — the
names of the system-server modules that are not supplied by an updatable
unit, in their original order. -/
def NonUpdatableSystemServerJars (g : GlobalConfig) : List String :=
  (g.SystemServerJars.filter
    (fun m => decide (m ∉ g.UpdatableSystemServerJars))).map ModulePair.jar

/-- `systemServerClasspath`: the on-device locations of the system server
classpath modules — non-updatable jars under `/system/framework`, then the
device paths of the updatable system-server jars. The `panic` on a length
mismatch is embedded as `Except.error` carrying the panic message. -/
def systemServerClasspath (g : GlobalConfig) : Except String (List String) :=
  let nonUpdatable := NonUpdatableSystemServerJars g
  let systemServerClasspathLocations :=
    nonUpdatable.map (fun m => "/system/framework/" ++ m ++ ".jar")
      ++ DevicePaths g.UpdatableSystemServerJars OsType.android
  let expectedLen := g.SystemServerJars.length + g.UpdatableSystemServerJars.length
  if expectedLen ≠ systemServerClasspathLocations.length then
    Except.error ("wrong number of system server jars, got "
      ++ toString systemServerClasspathLocations.length
      ++ ", expected " ++ toString expectedLen)
  else
    Except.ok systemServerClasspathLocations

/-- `dexpreoptTargets`: the device targets whose native-bridge mode is
disabled, followed by every host-OS target. -/
def dexpreoptTargets (sc : SoongConfig) : List Target :=
  sc.targetsDevice.filter
      (fun target => decide (target.nativeBridge = NativeBridgeSupport.disabled))
    ++ sc.targetsHost

def artBootImageName : String := "art"

def frameworkBootImageName : String := "boot"

/-- A `bootImageVariant`: one target-specific instantiation of a boot image
config. `primaryImages` is `none` until the extension wiring fills it. -/
structure bootImageVariant where
  target : Target
  imagePathOnHost : String
  imagesDeps : List String
  dexLocations : List String
  dexLocationsDeps : List String
  primaryImages : Option String
deriving DecidableEq, Repr

/-- A `bootImageConfig`. The Go struct's `extends` pointer is embedded as the
name of the parent config (`extendsName`), following the layering model; the
fields filled later by `genBootImageConfigs` default to empty values, matching
the Go zero values of the struct literal. -/
structure bootImageConfig where
  name : String
  stem : String
  installDirOnHost : String
  modules : ConfiguredJarList
  extendsName : Option String := none
  dir : String := ""
  symbolsDir : String := ""
  dexPaths : List String := []
  dexPathsDeps : List String := []
  variants : List bootImageVariant := []
  zip : String := ""
deriving DecidableEq, Repr

/-- Modelled from the spec: `firstModuleNameOrStem` — the single-image
artifact name stem, `<stem>` for the primary image and `<stem>-<1st module>`
for an extension (comment at the call site in `genBootImageConfigs`). -/
def bootImageConfig.firstModuleNameOrStem (c : bootImageConfig) : String :=
  match c.extendsName with
  | none => c.stem
  | some _ =>
    match c.modules with
    | [] => c.stem
    | m :: _ => c.stem ++ "-" ++ m.jar

/-- Modelled from the spec: `moduleFiles` — for each module, the image file
plus its companion artifact files (one per extension) in the given
directory, in module order. -/
def moduleFiles (l : ConfiguredJarList) (dir : String) (exts : List String) :
    List String :=
  l.flatMap (fun m => exts.map (fun e => dir ++ "/" ++ m.jar ++ e))

/-- `android.PathForOutput(ctx, ctx.Config().DeviceName())`. -/
def pathForOutput (sc : SoongConfig) : String :=
  "out/soong/" ++ sc.deviceName

/-- The variant built for one target in the per-config loop of
`genBootImageConfigs`: `dexLocationsDeps` starts out equal to
`dexLocations`. -/
def mkBootImageVariant (c : bootImageConfig) (dir imageName : String)
    (target : Target) : bootImageVariant :=
  let imageDir := dir ++ "/" ++ target.os.str ++ "/" ++ c.installDirOnHost
    ++ "/" ++ target.archType
  { target := target
    imagePathOnHost := imageDir ++ "/" ++ imageName
    imagesDeps := moduleFiles c.modules imageDir [".art", ".oat", ".vdex"]
    dexLocations := DevicePaths c.modules target.os
    dexLocationsDeps := DevicePaths c.modules target.os
    primaryImages := none }

/-- The "common to all configs" loop body of `genBootImageConfigs`: fills the
directories, dex paths, the per-target variants and the zip path of one
config. -/
def setupCommonConfig (targets : List Target) (deviceDir : String)
    (c : bootImageConfig) : bootImageConfig :=
  let dir := deviceDir ++ "/dex_" ++ c.name ++ "jars"
  let symbolsDir := deviceDir ++ "/dex_" ++ c.name ++ "jars_unstripped"
  let imageName := c.firstModuleNameOrStem ++ ".art"
  let inputDir := deviceDir ++ "/dex_" ++ c.name ++ "jars_input"
  let dexPaths := BuildPaths c.modules inputDir
  { c with
    dir := dir
    symbolsDir := symbolsDir
    dexPaths := dexPaths
    dexPathsDeps := dexPaths
    variants := targets.map (mkBootImageVariant c dir imageName)
    zip := dir ++ "/" ++ c.name ++ ".zip" }

/-- The framework-specific wiring of one extension variant against the base
variant of the same target index: `primaryImages` becomes the base variant's
image path, and the base variant's `dexLocations` are placed before the
extension's own in `dexLocationsDeps`. -/
def wireExtensionVariant (av fv : bootImageVariant) : bootImageVariant :=
  { fv with
    primaryImages := some av.imagePathOnHost
    dexLocationsDeps := av.dexLocations ++ fv.dexLocationsDeps }

/-- The two configs returned by `genBootImageConfigs` (the Go map with the
keys `"art"` and `"boot"`). -/
structure bootImageConfigs where
  art : bootImageConfig
  framework : bootImageConfig
deriving DecidableEq, Repr

/-- `genBootImageConfigs`: builds the ART (base) config and the framework
(extension) config, runs the common setup for both, then performs the
framework-specific cross-layer wiring. -/
def genBootImageConfigs (sc : SoongConfig) (g : GlobalConfig) :
    bootImageConfigs :=
  let targets := dexpreoptTargets sc
  let deviceDir := pathForOutput sc
  let artModules := g.ArtApexJars
  let frameworkModules := RemoveList g.BootJars artModules
  let artCfg := setupCommonConfig targets deviceDir
    { name := artBootImageName
      stem := "boot"
      installDirOnHost := "apex/art_boot_images/javalib"
      modules := artModules }
  let frameworkCfgPre := setupCommonConfig targets deviceDir
    { extendsName := some artBootImageName
      name := frameworkBootImageName
      stem := "boot"
      installDirOnHost := "system/framework"
      modules := frameworkModules }
  let frameworkCfg :=
    { frameworkCfgPre with
      dexPathsDeps := artCfg.dexPathsDeps ++ frameworkCfgPre.dexPathsDeps
      variants :=
        List.zipWith wireExtensionVariant artCfg.variants frameworkCfgPre.variants }
  { art := artCfg, framework := frameworkCfg }

/-- `artBootImageConfig`: the base config of the derivation. -/
def artBootImageConfig (sc : SoongConfig) (g : GlobalConfig) : bootImageConfig :=
  (genBootImageConfigs sc g).art

/-- `defaultBootImageConfig`: the framework (extension) config of the
derivation. -/
def defaultBootImageConfig (sc : SoongConfig) (g : GlobalConfig) :
    bootImageConfig :=
  (genBootImageConfigs sc g).framework

/-- `updatableBootConfig`: the standalone updatable-boot-jars configuration. -/
structure updatableBootConfig where
  modules : ConfiguredJarList
  dexPaths : List String
  dexLocations : List String
deriving DecidableEq, Repr

/-- `GetUpdatableBootConfig`: build paths under the `updatable_bootjars`
output directory and Android device locations of the updatable boot jars. -/
def GetUpdatableBootConfig (sc : SoongConfig) (g : GlobalConfig) :
    updatableBootConfig :=
  let updatableBootJars := g.UpdatableBootJars
  let dir := pathForOutput sc ++ "/updatable_bootjars"
  { modules := updatableBootJars
    dexPaths := BuildPaths updatableBootJars dir
    dexLocations := DevicePaths updatableBootJars OsType.android }

/-- Modelled from the spec: `getAnyAndroidVariant` (defined in
`dexpreopt_bootjars.go`, outside this file) — some variant whose target OS is
Android, here the first one; `none` embeds the nil pointer the Go code would
dereference when no Android variant exists. -/
def bootImageConfig.getAnyAndroidVariant (c : bootImageConfig) :
    Option bootImageVariant :=
  c.variants.find? (fun v => decide (v.target.os = OsType.android))

/-- `bcpForDexpreopt`: the boot-classpath paths and locations passed to
dex2oat — the framework config's transitive lists, extended with the
updatable boot config's own lists when `withUpdatable` is set. `none` embeds
the nil-variant dereference when the config has no Android variant. -/
def bcpForDexpreopt (sc : SoongConfig) (g : GlobalConfig)
    (withUpdatable : Bool) : Option (List String × List String) :=
  let bootImage := defaultBootImageConfig sc g
  let dexPaths := bootImage.dexPathsDeps
  match bootImage.getAnyAndroidVariant with
  | none => none
  | some v =>
    let dexLocations := v.dexLocationsDeps
    if withUpdatable then
      let updBootConfig := GetUpdatableBootConfig sc g
      some (dexPaths ++ updBootConfig.dexPaths,
            dexLocations ++ updBootConfig.dexLocations)
    else
      some (dexPaths, dexLocations)

/-- `dexpreoptConfigMakevars`: the single exported make variable, as a
(name, value) pair — the colon-joined `namespace:module` pairs of the default
boot image config's modules. -/
def dexpreoptConfigMakevars (sc : SoongConfig) (g : GlobalConfig) :
    String × String :=
  ("DEXPREOPT_BOOT_JARS_MODULES",
    String.intercalate ":" (CopyOfApexJarPairs (defaultBootImageConfig sc g).modules))

def artCfgInit (g : GlobalConfig) : bootImageConfig :=
  { name := artBootImageName
    stem := "boot"
    installDirOnHost := "apex/art_boot_images/javalib"
    modules := g.ArtApexJars }

def frameworkCfgInit (g : GlobalConfig) : bootImageConfig :=
  { extendsName := some artBootImageName
    name := frameworkBootImageName
    stem := "boot"
    installDirOnHost := "system/framework"
    modules := RemoveList g.BootJars g.ArtApexJars }

def tArm64 : Target :=
  { os := OsType.android, archType := "arm64", nativeBridge := NativeBridgeSupport.disabled }

def tArm : Target :=
  { os := OsType.android, archType := "arm", nativeBridge := NativeBridgeSupport.disabled }

def tX86Bridge : Target :=
  { os := OsType.android, archType := "x86", nativeBridge := NativeBridgeSupport.enabled }

def tHost : Target :=
  { os := OsType.linux, archType := "x86_64", nativeBridge := NativeBridgeSupport.disabled }

def scEx : SoongConfig :=
  { targetsDevice := [tArm64, tArm, tX86Bridge], targetsHost := [tHost],
    deviceName := "generic" }

def coreOj : ModulePair := { apex := "com.android.art", jar := "core-oj" }

def coreLibart : ModulePair := { apex := "com.android.art", jar := "core-libart" }

def frameworkJar : ModulePair := { apex := "platform", jar := "framework" }

def servicesJar : ModulePair := { apex := "platform", jar := "services" }

def conscryptJar : ModulePair := { apex := "com.android.conscrypt", jar := "conscrypt" }

def permissionJar : ModulePair :=
  { apex := "com.android.permission", jar := "service-permission" }

def gEx : GlobalConfig :=
  { ArtApexJars := [coreOj, coreLibart]
    BootJars := [coreOj, coreLibart, frameworkJar, servicesJar]
    UpdatableBootJars := [conscryptJar]
    SystemServerJars := [servicesJar]
    UpdatableSystemServerJars := [permissionJar] }

def gBad : GlobalConfig :=
  { ArtApexJars := [coreOj]
    BootJars := [frameworkJar]
    UpdatableBootJars := []
    SystemServerJars := []
    UpdatableSystemServerJars := [] }

def scEmpty : SoongConfig :=
  { targetsDevice := [], targetsHost := [], deviceName := "generic" }

def ssOkList : List String :=
  ["/system/framework/services.jar",
   "/apex/com.android.permission/javalib/service-permission.jar"]

def bcpPathsEx : List String :=
  ["out/soong/generic/dex_artjars_input/com.android.art/core-oj.jar",
   "out/soong/generic/dex_artjars_input/com.android.art/core-libart.jar",
   "out/soong/generic/dex_bootjars_input/platform/framework.jar",
   "out/soong/generic/dex_bootjars_input/platform/services.jar"]

def bcpLocationsEx : List String :=
  ["/apex/com.android.art/javalib/core-oj.jar",
   "/apex/com.android.art/javalib/core-libart.jar",
   "/system/framework/framework.jar",
   "/system/framework/services.jar"]

theorem gen_art_eq (sc : SoongConfig) (g : GlobalConfig) :
    (genBootImageConfigs sc g).art
      = setupCommonConfig (dexpreoptTargets sc) (pathForOutput sc) (artCfgInit g) := rfl

theorem gen_framework_variants_eq (sc : SoongConfig) (g : GlobalConfig) :
    (genBootImageConfigs sc g).framework.variants
      = List.zipWith wireExtensionVariant
          (setupCommonConfig (dexpreoptTargets sc) (pathForOutput sc) (artCfgInit g)).variants
          (setupCommonConfig (dexpreoptTargets sc) (pathForOutput sc) (frameworkCfgInit g)).variants := rfl

theorem setupCommonConfig_variants_eq (ts : List Target) (dd : String) (c : bootImageConfig) :
    (setupCommonConfig ts dd c).variants
      = ts.map (mkBootImageVariant c (dd ++ "/dex_" ++ c.name ++ "jars")
          (c.firstModuleNameOrStem ++ ".art")) := rfl

theorem art_variants_get (sc : SoongConfig) (g : GlobalConfig) (i : Nat)
    (h : i < (genBootImageConfigs sc g).art.variants.length)
    (h' : i < (dexpreoptTargets sc).length) :
    (genBootImageConfigs sc g).art.variants.get ⟨i, h⟩
      = mkBootImageVariant (artCfgInit g)
          (pathForOutput sc ++ "/dex_" ++ (artCfgInit g).name ++ "jars")
          ((artCfgInit g).firstModuleNameOrStem ++ ".art")
          ((dexpreoptTargets sc).get ⟨i, h'⟩) := by
  simp only [gen_art_eq, setupCommonConfig_variants_eq, List.get_eq_getElem, List.getElem_map]

theorem framework_variants_get (sc : SoongConfig) (g : GlobalConfig) (i : Nat)
    (h : i < (genBootImageConfigs sc g).framework.variants.length)
    (h' : i < (dexpreoptTargets sc).length) :
    (genBootImageConfigs sc g).framework.variants.get ⟨i, h⟩
      = wireExtensionVariant
          (mkBootImageVariant (artCfgInit g)
            (pathForOutput sc ++ "/dex_" ++ (artCfgInit g).name ++ "jars")
            ((artCfgInit g).firstModuleNameOrStem ++ ".art")
            ((dexpreoptTargets sc).get ⟨i, h'⟩))
          (mkBootImageVariant (frameworkCfgInit g)
            (pathForOutput sc ++ "/dex_" ++ (frameworkCfgInit g).name ++ "jars")
            ((frameworkCfgInit g).firstModuleNameOrStem ++ ".art")
            ((dexpreoptTargets sc).get ⟨i, h'⟩)) := by
  simp only [gen_framework_variants_eq, setupCommonConfig_variants_eq, List.get_eq_getElem,
    List.getElem_zipWith, List.getElem_map]

theorem art_variants_length (sc : SoongConfig) (g : GlobalConfig) :
    (genBootImageConfigs sc g).art.variants.length = (dexpreoptTargets sc).length := by
  simp [gen_art_eq, setupCommonConfig_variants_eq]

theorem framework_variants_length (sc : SoongConfig) (g : GlobalConfig) :
    (genBootImageConfigs sc g).framework.variants.length = (dexpreoptTargets sc).length := by
  simp [gen_framework_variants_eq, setupCommonConfig_variants_eq, List.length_zipWith]

theorem mkBootImageVariant_target (c : bootImageConfig) (d n : String) (t : Target) :
    (mkBootImageVariant c d n t).target = t := rfl

theorem mkBootImageVariant_dexLocations (c : bootImageConfig) (d n : String) (t : Target) :
    (mkBootImageVariant c d n t).dexLocations = DevicePaths c.modules t.os := rfl

theorem mkBootImageVariant_dexLocationsDeps (c : bootImageConfig) (d n : String) (t : Target) :
    (mkBootImageVariant c d n t).dexLocationsDeps = DevicePaths c.modules t.os := rfl

theorem wireExtensionVariant_target (a f : bootImageVariant) :
    (wireExtensionVariant a f).target = f.target := rfl

theorem wireExtensionVariant_primaryImages (a f : bootImageVariant) :
    (wireExtensionVariant a f).primaryImages = some a.imagePathOnHost := rfl

theorem wireExtensionVariant_dexLocations (a f : bootImageVariant) :
    (wireExtensionVariant a f).dexLocations = f.dexLocations := rfl

theorem wireExtensionVariant_dexLocationsDeps (a f : bootImageVariant) :
    (wireExtensionVariant a f).dexLocationsDeps = a.dexLocations ++ f.dexLocationsDeps := rfl

/-- C1: after `genBootImageConfigs`, the framework (extension) config's
`dexPathsDeps` is the art (base) config's `dexPathsDeps` followed by the
extension's own `dexPaths`, and at every target index the extension variant's
`primaryImages` is the base variant's image path while its `dexLocationsDeps`
is the base variant's `dexLocations` followed by the extension variant's own
`dexLocations`. -/
theorem genBootImageConfigs_extension_wiring (sc : SoongConfig) (g : GlobalConfig)
    (i : Nat) (hf : i < (genBootImageConfigs sc g).framework.variants.length)
    (ha : i < (genBootImageConfigs sc g).art.variants.length) :
    (genBootImageConfigs sc g).framework.dexPathsDeps
        = (genBootImageConfigs sc g).art.dexPathsDeps
          ++ (genBootImageConfigs sc g).framework.dexPaths
    ∧ ((genBootImageConfigs sc g).framework.variants.get ⟨i, hf⟩).primaryImages
        = some (((genBootImageConfigs sc g).art.variants.get ⟨i, ha⟩).imagePathOnHost)
    ∧ ((genBootImageConfigs sc g).framework.variants.get ⟨i, hf⟩).dexLocationsDeps
        = ((genBootImageConfigs sc g).art.variants.get ⟨i, ha⟩).dexLocations
          ++ ((genBootImageConfigs sc g).framework.variants.get ⟨i, hf⟩).dexLocations := by
  have h' : i < (dexpreoptTargets sc).length := by
    rw [← art_variants_length sc g]; exact ha
  refine ⟨rfl, ?_, ?_⟩
  · rw [framework_variants_get sc g i hf h', art_variants_get sc g i ha h',
      wireExtensionVariant_primaryImages]
  · rw [framework_variants_get sc g i hf h', art_variants_get sc g i ha h',
      wireExtensionVariant_dexLocationsDeps, wireExtensionVariant_dexLocations,
      mkBootImageVariant_dexLocations, mkBootImageVariant_dexLocations,
      mkBootImageVariant_dexLocationsDeps]

/-- C3: every config of one derivation pass has exactly one variant per target
of `dexpreoptTargets`, aligned by index: `variants[i]` is the variant of
`targets[i]` for both the art and the framework config. -/
theorem genBootImageConfigs_variants_align (sc : SoongConfig) (g : GlobalConfig)
    (i : Nat) (hi : i < (dexpreoptTargets sc).length)
    (ha : i < (genBootImageConfigs sc g).art.variants.length)
    (hf : i < (genBootImageConfigs sc g).framework.variants.length) :
    (genBootImageConfigs sc g).art.variants.length = (dexpreoptTargets sc).length
    ∧ (genBootImageConfigs sc g).framework.variants.length = (dexpreoptTargets sc).length
    ∧ ((genBootImageConfigs sc g).art.variants.get ⟨i, ha⟩).target
        = (dexpreoptTargets sc).get ⟨i, hi⟩
    ∧ ((genBootImageConfigs sc g).framework.variants.get ⟨i, hf⟩).target
        = (dexpreoptTargets sc).get ⟨i, hi⟩ :=
  ⟨art_variants_length sc g, framework_variants_length sc g,
   by rw [art_variants_get sc g i ha hi, mkBootImageVariant_target],
   by rw [framework_variants_get sc g i hf hi, wireExtensionVariant_target,
     mkBootImageVariant_target]⟩

/-- C10: any two Android variants of one config of a derivation pass have
the same `dexLocations` and the same `dexLocationsDeps`. -/
theorem android_variants_locations_agree (sc : SoongConfig) (g : GlobalConfig)
    (c : bootImageConfig)
    (hc : c = (genBootImageConfigs sc g).art ∨ c = (genBootImageConfigs sc g).framework)
    (i j : Nat) (hi : i < c.variants.length) (hj : j < c.variants.length)
    (hoi : (c.variants.get ⟨i, hi⟩).target.os = OsType.android)
    (hoj : (c.variants.get ⟨j, hj⟩).target.os = OsType.android) :
    (c.variants.get ⟨i, hi⟩).dexLocations = (c.variants.get ⟨j, hj⟩).dexLocations
    ∧ (c.variants.get ⟨i, hi⟩).dexLocationsDeps
        = (c.variants.get ⟨j, hj⟩).dexLocationsDeps := by
  rcases hc with hc | hc
  · subst hc
    have hi' : i < (dexpreoptTargets sc).length := by
      rw [← art_variants_length sc g]; exact hi
    have hj' : j < (dexpreoptTargets sc).length := by
      rw [← art_variants_length sc g]; exact hj
    rw [art_variants_get sc g i hi hi', mkBootImageVariant_target] at hoi
    rw [art_variants_get sc g j hj hj', mkBootImageVariant_target] at hoj
    refine ⟨?_, ?_⟩
    · rw [art_variants_get sc g i hi hi', art_variants_get sc g j hj hj',
        mkBootImageVariant_dexLocations, mkBootImageVariant_dexLocations, hoi, hoj]
    · rw [art_variants_get sc g i hi hi', art_variants_get sc g j hj hj',
        mkBootImageVariant_dexLocationsDeps, mkBootImageVariant_dexLocationsDeps, hoi, hoj]
  · subst hc
    have hi' : i < (dexpreoptTargets sc).length := by
      rw [← framework_variants_length sc g]; exact hi
    have hj' : j < (dexpreoptTargets sc).length := by
      rw [← framework_variants_length sc g]; exact hj
    rw [framework_variants_get sc g i hi hi', wireExtensionVariant_target,
      mkBootImageVariant_target] at hoi
    rw [framework_variants_get sc g j hj hj', wireExtensionVariant_target,
      mkBootImageVariant_target] at hoj
    refine ⟨?_, ?_⟩
    · rw [framework_variants_get sc g i hi hi', framework_variants_get sc g j hj hj',
        wireExtensionVariant_dexLocations, wireExtensionVariant_dexLocations,
        mkBootImageVariant_dexLocations, mkBootImageVariant_dexLocations, hoi, hoj]
    · rw [framework_variants_get sc g i hi hi', framework_variants_get sc g j hj hj',
        wireExtensionVariant_dexLocationsDeps, wireExtensionVariant_dexLocationsDeps,
        mkBootImageVariant_dexLocations, mkBootImageVariant_dexLocations,
        mkBootImageVariant_dexLocationsDeps, mkBootImageVariant_dexLocationsDeps, hoi, hoj]

/-- C2: the framework (extension) module list is the full boot jar list minus
the ART apex jars, an order-preserving sublist of the full list; it is
disjoint from the base modules, and — when the base list is contained in the
full list, as the global configuration guarantees — the two lists together
cover exactly the full boot module set. -/
theorem frameworkModules_partition (sc : SoongConfig) (g : GlobalConfig)
    (hsub : ∀ m ∈ g.ArtApexJars, m ∈ g.BootJars) :
    (genBootImageConfigs sc g).framework.modules = RemoveList g.BootJars g.ArtApexJars
    ∧ List.Sublist (genBootImageConfigs sc g).framework.modules g.BootJars
    ∧ (∀ m ∈ (genBootImageConfigs sc g).framework.modules,
        m ∉ (genBootImageConfigs sc g).art.modules)
    ∧ ∀ m : ModulePair,
        (m ∈ (genBootImageConfigs sc g).framework.modules
          ∨ m ∈ (genBootImageConfigs sc g).art.modules) ↔ m ∈ g.BootJars := by
  have hart : (genBootImageConfigs sc g).art.modules = g.ArtApexJars := rfl
  have hfw : (genBootImageConfigs sc g).framework.modules
      = RemoveList g.BootJars g.ArtApexJars := rfl
  refine ⟨hfw, ?_, ?_, ?_⟩
  · rw [hfw]; exact List.filter_sublist _
  · intro m hm
    rw [hfw] at hm
    rw [hart]
    simp only [RemoveList, List.mem_filter] at hm
    simpa using hm.2
  · intro m
    rw [hfw, hart]
    simp only [RemoveList, List.mem_filter]
    constructor
    · rintro (hm | hm)
      · exact hm.1
      · exact hsub m hm
    · intro hm
      by_cases hmem : m ∈ g.ArtApexJars
      · exact Or.inr hmem
      · exact Or.inl ⟨hm, by simpa using hmem⟩

/-- C4 counterexample: a configuration whose base and extension module counts
do not sum to the total boot-jar count, on which `genBootImageConfigs` still
returns a fully built pair of configs — no abort happens. -/
theorem genBootImageConfigs_no_abort_on_count_mismatch :
    (genBootImageConfigs scEx gBad).art.modules.length
        + (genBootImageConfigs scEx gBad).framework.modules.length
      ≠ gBad.BootJars.length
    ∧ (genBootImageConfigs scEx gBad).art.variants.length = 3
    ∧ (genBootImageConfigs scEx gBad).framework.variants.length = 3
    ∧ (genBootImageConfigs scEx gBad).framework.dexPathsDeps.length = 2 := by
  decide

/-- C4 amended: `genBootImageConfigs` performs no module-count invariant
check; for every input, also when the counts mismatch, it totally returns the
pair of configs with the base modules, the difference-derived extension
modules, and one variant per resolved target. -/
theorem genBootImageConfigs_total (sc : SoongConfig) (g : GlobalConfig) :
    (genBootImageConfigs sc g).art.modules = g.ArtApexJars
    ∧ (genBootImageConfigs sc g).framework.modules = RemoveList g.BootJars g.ArtApexJars
    ∧ (genBootImageConfigs sc g).art.variants.length = (dexpreoptTargets sc).length
    ∧ (genBootImageConfigs sc g).framework.variants.length = (dexpreoptTargets sc).length :=
  ⟨rfl, rfl, art_variants_length sc g, framework_variants_length sc g⟩

/-- C8 counterexample: the exported `DEXPREOPT_BOOT_JARS_MODULES` value is the
colon-joined pairs of the framework (extension) config's modules, which is
neither the colon-joined full boot module set nor the colon-joined base
(ART) module set. -/
theorem dexpreoptConfigMakevars_counterexample :
    (dexpreoptConfigMakevars scEx gEx).2 = "platform:framework:platform:services"
    ∧ String.intercalate ":" (CopyOfApexJarPairs gEx.ArtApexJars)
        = "com.android.art:core-oj:com.android.art:core-libart"
    ∧ String.intercalate ":" (CopyOfApexJarPairs gEx.BootJars)
        = "com.android.art:core-oj:com.android.art:core-libart:platform:framework:platform:services"
    ∧ (dexpreoptConfigMakevars scEx gEx).2
        ≠ String.intercalate ":" (CopyOfApexJarPairs gEx.ArtApexJars)
    ∧ (dexpreoptConfigMakevars scEx gEx).2
        ≠ String.intercalate ":" (CopyOfApexJarPairs gEx.BootJars) := by
  decide

/-- C8 amended: the single exported build variable is
`DEXPREOPT_BOOT_JARS_MODULES`, whose value is the colon-joined
`namespace:module` pairs of the default (framework/extension) boot image
config's modules — the full boot jar list minus the ART apex jars. -/
theorem dexpreoptConfigMakevars_value (sc : SoongConfig) (g : GlobalConfig) :
    dexpreoptConfigMakevars sc g
      = ("DEXPREOPT_BOOT_JARS_MODULES",
        String.intercalate ":"
          (CopyOfApexJarPairs (RemoveList g.BootJars g.ArtApexJars))) := rfl

theorem BuildPaths_length (l : ConfiguredJarList) (root : String) :
    (BuildPaths l root).length = l.length := List.length_map _ _

theorem DevicePaths_length (l : ConfiguredJarList) (os : OsType) :
    (DevicePaths l os).length = l.length := List.length_map _ _

theorem GetUpdatableBootConfig_dexPaths (sc : SoongConfig) (g : GlobalConfig) :
    (GetUpdatableBootConfig sc g).dexPaths
      = BuildPaths g.UpdatableBootJars (pathForOutput sc ++ "/updatable_bootjars") := rfl

theorem GetUpdatableBootConfig_dexLocations (sc : SoongConfig) (g : GlobalConfig) :
    (GetUpdatableBootConfig sc g).dexLocations
      = DevicePaths g.UpdatableBootJars OsType.android := rfl

/-- C5: a successful `systemServerClasspath` is the `/system/framework`
locations of the non-updatable system-server jars followed by the device
paths of the updatable system-server jars, with length equal to the two
configured counts; when the count invariant fails, it aborts with the error
naming the actual and the expected count. -/
theorem systemServerClasspath_spec (g : GlobalConfig) :
    (∀ l, systemServerClasspath g = Except.ok l →
      l = (NonUpdatableSystemServerJars g).map
            (fun m => "/system/framework/" ++ m ++ ".jar")
          ++ DevicePaths g.UpdatableSystemServerJars OsType.android
      ∧ l.length = g.SystemServerJars.length + g.UpdatableSystemServerJars.length)
    ∧ (g.SystemServerJars.length + g.UpdatableSystemServerJars.length
          ≠ (NonUpdatableSystemServerJars g).length
            + g.UpdatableSystemServerJars.length →
        systemServerClasspath g = Except.error
          ("wrong number of system server jars, got "
            ++ toString ((NonUpdatableSystemServerJars g).length
                + g.UpdatableSystemServerJars.length)
            ++ ", expected "
            ++ toString (g.SystemServerJars.length
                + g.UpdatableSystemServerJars.length))) := by
  have hlen : ((NonUpdatableSystemServerJars g).map
        (fun m => "/system/framework/" ++ m ++ ".jar")
      ++ DevicePaths g.UpdatableSystemServerJars OsType.android).length
      = (NonUpdatableSystemServerJars g).length
        + g.UpdatableSystemServerJars.length := by
    simp [DevicePaths]
  constructor
  · intro l hl
    simp only [systemServerClasspath] at hl
    split at hl
    · exact absurd hl (by simp)
    · rename_i hcond
      rw [Except.ok.injEq] at hl
      subst hl
      refine ⟨rfl, ?_⟩
      rw [hlen] at hcond ⊢
      omega
  · intro hne
    simp only [systemServerClasspath]
    rw [if_pos]
    · rw [hlen]
    · rw [hlen]
      exact hne

/-- C6: without updatable jars, `bcpForDexpreopt` returns exactly the
framework config's transitive `dexPathsDeps` and an Android variant's
transitive `dexLocationsDeps`; with updatable jars it returns the same two
lists with the updatable boot config's paths and locations appended, so each
with-updatable length is the without-updatable length plus the updatable
boot-jar count. -/
theorem bcpForDexpreopt_spec (sc : SoongConfig) (g : GlobalConfig)
    (p l : List String)
    (h : bcpForDexpreopt sc g false = some (p, l)) :
    p = (genBootImageConfigs sc g).framework.dexPathsDeps
    ∧ (∃ v, (genBootImageConfigs sc g).framework.getAnyAndroidVariant = some v
        ∧ v.target.os = OsType.android ∧ l = v.dexLocationsDeps)
    ∧ bcpForDexpreopt sc g true
        = some (p ++ (GetUpdatableBootConfig sc g).dexPaths,
                l ++ (GetUpdatableBootConfig sc g).dexLocations)
    ∧ (p ++ (GetUpdatableBootConfig sc g).dexPaths).length
        = p.length + g.UpdatableBootJars.length
    ∧ (l ++ (GetUpdatableBootConfig sc g).dexLocations).length
        = l.length + g.UpdatableBootJars.length := by
  have hd : defaultBootImageConfig sc g = (genBootImageConfigs sc g).framework := rfl
  simp only [bcpForDexpreopt, hd] at h ⊢
  cases hv : (genBootImageConfigs sc g).framework.getAnyAndroidVariant with
  | none =>
    rw [hv] at h
    simp at h
  | some v =>
    rw [hv] at h
    simp only [Bool.false_eq_true, if_false, Option.some.injEq, Prod.mk.injEq] at h
    obtain ⟨hp, hl⟩ := h
    subst hp
    subst hl
    have hos : v.target.os = OsType.android := by
      have := List.find?_some hv
      simpa using this
    refine ⟨rfl, ⟨v, rfl, hos, rfl⟩, ?_, ?_, ?_⟩
    · simp
    · rw [List.length_append, GetUpdatableBootConfig_dexPaths, BuildPaths_length]
    · rw [List.length_append, GetUpdatableBootConfig_dexLocations, DevicePaths_length]

/-- C7: `dexpreoptTargets` is a list of the device targets whose
native-bridge mode is disabled — an order-preserving sublist of the device
target matrix containing every such target — followed by every host target,
and it is empty when no targets are configured. -/
theorem dexpreoptTargets_spec (sc : SoongConfig) :
    (∃ ds, dexpreoptTargets sc = ds ++ sc.targetsHost
      ∧ List.Sublist ds sc.targetsDevice
      ∧ (∀ t ∈ ds, t.nativeBridge = NativeBridgeSupport.disabled)
      ∧ ∀ t ∈ sc.targetsDevice,
          t.nativeBridge = NativeBridgeSupport.disabled → t ∈ ds)
    ∧ (sc.targetsDevice = [] → sc.targetsHost = [] → dexpreoptTargets sc = []) := by
  refine ⟨⟨sc.targetsDevice.filter
      (fun target => decide (target.nativeBridge = NativeBridgeSupport.disabled)),
      rfl, List.filter_sublist _, ?_, ?_⟩, ?_⟩
  · intro t ht
    have := List.mem_filter.mp ht
    simpa using this.2
  · intro t ht hnb
    exact List.mem_filter.mpr ⟨ht, by simpa using hnb⟩
  · intro h1 h2
    simp [dexpreoptTargets, h1, h2]

/-- C1 witness at the example configuration, target index 0. -/
theorem genBootImageConfigs_extension_wiring_witness :
    (genBootImageConfigs scEx gEx).framework.dexPathsDeps
        = (genBootImageConfigs scEx gEx).art.dexPathsDeps
          ++ (genBootImageConfigs scEx gEx).framework.dexPaths
    ∧ ((genBootImageConfigs scEx gEx).framework.variants.get ⟨0, by decide⟩).primaryImages
        = some (((genBootImageConfigs scEx gEx).art.variants.get ⟨0, by decide⟩).imagePathOnHost)
    ∧ ((genBootImageConfigs scEx gEx).framework.variants.get ⟨0, by decide⟩).dexLocationsDeps
        = ((genBootImageConfigs scEx gEx).art.variants.get ⟨0, by decide⟩).dexLocations
          ++ ((genBootImageConfigs scEx gEx).framework.variants.get ⟨0, by decide⟩).dexLocations :=
  genBootImageConfigs_extension_wiring scEx gEx 0 (by decide) (by decide)

/-- C2 witness at the example configuration. -/
theorem frameworkModules_partition_witness :
    (genBootImageConfigs scEx gEx).framework.modules
        = RemoveList gEx.BootJars gEx.ArtApexJars
    ∧ List.Sublist (genBootImageConfigs scEx gEx).framework.modules gEx.BootJars
    ∧ (∀ m ∈ (genBootImageConfigs scEx gEx).framework.modules,
        m ∉ (genBootImageConfigs scEx gEx).art.modules)
    ∧ ∀ m : ModulePair,
        (m ∈ (genBootImageConfigs scEx gEx).framework.modules
          ∨ m ∈ (genBootImageConfigs scEx gEx).art.modules) ↔ m ∈ gEx.BootJars :=
  frameworkModules_partition scEx gEx (by decide)

/-- C3 witness at the example configuration, target index 2 (the host
target). -/
theorem genBootImageConfigs_variants_align_witness :
    (genBootImageConfigs scEx gEx).art.variants.length = (dexpreoptTargets scEx).length
    ∧ (genBootImageConfigs scEx gEx).framework.variants.length
        = (dexpreoptTargets scEx).length
    ∧ ((genBootImageConfigs scEx gEx).art.variants.get ⟨2, by decide⟩).target
        = (dexpreoptTargets scEx).get ⟨2, by decide⟩
    ∧ ((genBootImageConfigs scEx gEx).framework.variants.get ⟨2, by decide⟩).target
        = (dexpreoptTargets scEx).get ⟨2, by decide⟩ :=
  genBootImageConfigs_variants_align scEx gEx 2 (by decide) (by decide) (by decide)

/-- C5 witness: the successful classpath of the example configuration. -/
theorem systemServerClasspath_spec_witness :
    ssOkList = (NonUpdatableSystemServerJars gEx).map
          (fun m => "/system/framework/" ++ m ++ ".jar")
        ++ DevicePaths gEx.UpdatableSystemServerJars OsType.android
    ∧ ssOkList.length
        = gEx.SystemServerJars.length + gEx.UpdatableSystemServerJars.length :=
  (systemServerClasspath_spec gEx).1 ssOkList (by rfl)

/-- C6 witness at the example configuration. -/
theorem bcpForDexpreopt_spec_witness :
    bcpPathsEx = (genBootImageConfigs scEx gEx).framework.dexPathsDeps
    ∧ bcpForDexpreopt scEx gEx true
        = some (bcpPathsEx ++ (GetUpdatableBootConfig scEx gEx).dexPaths,
                bcpLocationsEx ++ (GetUpdatableBootConfig scEx gEx).dexLocations)
    ∧ (bcpPathsEx ++ (GetUpdatableBootConfig scEx gEx).dexPaths).length
        = bcpPathsEx.length + gEx.UpdatableBootJars.length
    ∧ (bcpLocationsEx ++ (GetUpdatableBootConfig scEx gEx).dexLocations).length
        = bcpLocationsEx.length + gEx.UpdatableBootJars.length :=
  have h := bcpForDexpreopt_spec scEx gEx bcpPathsEx bcpLocationsEx (by rfl)
  ⟨h.1, h.2.2.1, h.2.2.2.1, h.2.2.2.2⟩

/-- C7 witness: an empty target matrix yields an empty result. -/
theorem dexpreoptTargets_spec_witness : dexpreoptTargets scEmpty = [] :=
  (dexpreoptTargets_spec scEmpty).2 rfl rfl

/-- C10 witness: the two Android variants of the example framework config. -/
theorem android_variants_locations_agree_witness :
    ((genBootImageConfigs scEx gEx).framework.variants.get ⟨0, by decide⟩).dexLocations
        = ((genBootImageConfigs scEx gEx).framework.variants.get ⟨1, by decide⟩).dexLocations
    ∧ ((genBootImageConfigs scEx gEx).framework.variants.get ⟨0, by decide⟩).dexLocationsDeps
        = ((genBootImageConfigs scEx gEx).framework.variants.get ⟨1, by decide⟩).dexLocationsDeps :=
  android_variants_locations_agree scEx gEx ((genBootImageConfigs scEx gEx).framework)
    (Or.inr rfl) 0 1 (by decide) (by decide) (by decide) (by decide)

end DexpreoptConfig
